import Mathlib

set_option maxHeartbeats 1000000

namespace MinionBasic

/-- A reported issue: the `Summary` and `Severity` fields of the dictionaries the
plugins of `minion/plugins/basic.py` pass to `report_issue(s)`. The remaining
template fields (Description, URLs, FurtherInfo) carry no decision logic. -/
structure Finding where
  summary : String
  severity : String
  deriving DecidableEq, Repr

/-- Python `\s` for byte strings: the six whitespace characters space, tab,
newline, carriage return, vertical tab and form feed. -/
def isPySpace (c : Char) : Bool :=
  c = ' ' || c = '\t' || c = '\n' || c = '\x0d' || c = '\x0b' || c = '\x0c'

/-- Drop the leading run of Python whitespace. -/
def dropSpaces (cs : List Char) : List Char :=
  cs.dropWhile isPySpace

/-- Python `str.upper()` on byte strings: uppercase the ASCII letters
(`Char.toUpper` maps exactly a-z). -/
def pyUpper (s : String) : String :=
  String.mk (s.data.map Char.toUpper)

/-- Python `str.lower()` on byte strings: lowercase the ASCII letters. -/
def pyLower (s : String) : String :=
  String.mk (s.data.map Char.toLower)

/-- Split a character list at every occurrence of `sep`, keeping empty pieces,
as Python `str.split(sep)` does. -/
def splitChar (sep : Char) : List Char → List (List Char)
  | [] => [[]]
  | c :: rest =>
    let r := splitChar sep rest
    if c = sep then [] :: r
    else
      match r with
      | [] => [[c]]
      | s :: ss => (c :: s) :: ss

/-- Model of `re.split(r';\s*', csp)` in `CSPPlugin._parse_csp`: each match of the
pattern consumes one `;` and the maximal whitespace run after it, so the result is
the split on `;` with the leading whitespace of every piece after the first
removed (no whitespace run following a `;` can contain another `;`). -/
def splitSemiL (cs : List Char) : List (List Char) :=
  match splitChar ';' cs with
  | [] => []
  | s :: ss => s :: ss.map dropSpaces

/-- Accumulator pass of `wsplitL`: `cur` is the current word reversed. -/
def wsplitAux : List Char → List Char → List (List Char)
  | cur, [] => if cur = [] then [] else [cur.reverse]
  | cur, c :: rest =>
    if isPySpace c then
      if cur = [] then wsplitAux [] rest
      else cur.reverse :: wsplitAux [] rest
    else wsplitAux (c :: cur) rest

/-- Python `str.split()` with no argument: split on runs of whitespace and
discard empty pieces. -/
def wsplitL (cs : List Char) : List (List Char) :=
  wsplitAux [] cs

/-- The token list of one `;`-separated segment of a CSP header value:
`rule.split()` in `CSPPlugin._parse_csp`. -/
def segWords (seg : List Char) : List String :=
  (wsplitL seg).map String.mk

/-- The keyword source expressions `_parse_csp` accepts without consulting the
URL pattern: the tuple `("'self'", "'unsafe-inline'", "'unsafe-eval'", "'https:'", "'https'")`. -/
def keywordTokens : List String :=
  ["'self'", "'unsafe-inline'", "'unsafe-eval'", "'https:'", "'https'"]

/-- Regular expressions over characters, enough for the `_url_regex` pattern of
`_parse_csp`: character sets are given as inclusive ranges with an optional
negation flag. Matching is by Brzozowski derivatives, see `RE.matches`. -/
inductive RE where
  | emp : RE
  | eps : RE
  | cset (neg : Bool) (rs : List (Char × Char)) : RE
  | cat (a b : RE) : RE
  | alt (a b : RE) : RE
  | star (a : RE) : RE
  deriving DecidableEq, Repr

/-- Does character `c` belong to the (possibly negated) range set? -/
def inCset (neg : Bool) (rs : List (Char × Char)) (c : Char) : Bool :=
  let m := rs.any (fun p => p.1.val ≤ c.val && c.val ≤ p.2.val)
  if neg then !m else m

/-- Does the regular expression accept the empty string? -/
def RE.nullable : RE → Bool
  | .emp => false
  | .eps => true
  | .cset _ _ => false
  | .cat a b => a.nullable && b.nullable
  | .alt a b => a.nullable || b.nullable
  | .star _ => true

/-- Smart concatenation, simplifying the empty-set and empty-string units. -/
def scat : RE → RE → RE
  | .emp, _ => .emp
  | .eps, b => b
  | _, .emp => .emp
  | a, .eps => a
  | a, b => .cat a b

/-- Smart alternation, simplifying the empty-set unit. -/
def salt : RE → RE → RE
  | .emp, b => b
  | a, .emp => a
  | a, b => .alt a b

/-- Brzozowski derivative of a regular expression with respect to one character. -/
def RE.deriv : RE → Char → RE
  | .emp, _ => .emp
  | .eps, _ => .emp
  | .cset n rs, c => if inCset n rs c then .eps else .emp
  | .cat a b, c =>
    if a.nullable then salt (scat (a.deriv c) b) (b.deriv c)
    else scat (a.deriv c) b
  | .alt a b, c => salt (a.deriv c) (b.deriv c)
  | .star a, c => scat (a.deriv c) (.star a)

/-- Whole-string match of a regular expression by iterated derivatives. -/
def RE.matches (r : RE) (s : List Char) : Bool :=
  (s.foldl RE.deriv r).nullable

/-- The regular expression matching exactly one given character. -/
def chrRE (c : Char) : RE :=
  RE.cset false [(c, c)]

/-- The regular expression matching exactly the given character list. -/
def strRE (cs : List Char) : RE :=
  cs.foldr (fun c r => RE.cat (chrRE c) r) RE.eps

/-- Zero-or-one repetitions. -/
def optRE (r : RE) : RE :=
  RE.alt RE.eps r

/-- At most `n` repetitions of `r` (the bounded quantifier `{0,n}`). -/
def repUpTo : Nat → RE → RE
  | 0, _ => RE.eps
  | n + 1, r => RE.alt RE.eps (RE.cat r (repUpTo n r))

/-- One or more repetitions of `r`. -/
def plusRE (r : RE) : RE :=
  RE.cat r (RE.star r)

/-- The class `.`: any character except a newline (patterns are compiled without
DOTALL). -/
def anyCharRE : RE :=
  RE.cset true [('\n', '\n')]

/-- The class `\S`: any character that is not Python whitespace. -/
def nonSpaceRE : RE :=
  RE.cset true [(' ', ' '), ('\t', '\t'), ('\n', '\n'), ('\x0d', '\x0d'), ('\x0b', '\x0b'), ('\x0c', '\x0c')]

/-- The class `[A-Z0-9]` under IGNORECASE, applied to uppercased input. -/
def alnumRE : RE :=
  RE.cset false [('A', 'Z'), ('0', '9')]

/-- The class `[A-Z0-9-]` under IGNORECASE, applied to uppercased input. -/
def alnumHyphenRE : RE :=
  RE.cset false [('A', 'Z'), ('0', '9'), ('-', '-')]

/-- The class `[A-Z]` under IGNORECASE, applied to uppercased input. -/
def letterRE : RE :=
  RE.cset false [('A', 'Z')]

/-- The class `\d`. -/
def digitRE : RE :=
  RE.cset false [('0', '9')]

/-- First group of `_url_regex`: `((?:http|ftp)s?://|\*.)*` — note the
unescaped dot, so the second alternative is a literal `*` followed by any
character. Written uppercased for the IGNORECASE match. -/
def urlSchemeRE : RE :=
  RE.star (RE.alt
    (RE.cat (RE.alt (strRE "HTTP".data) (strRE "FTP".data))
      (RE.cat (optRE (chrRE 'S')) (strRE "://".data)))
    (RE.cat (chrRE '*') anyCharRE))

/-- One hostname label of `_url_regex`:
`[A-Z0-9](?:[A-Z0-9-]{0,61}[A-Z0-9])?\.` -/
def urlLabelRE : RE :=
  RE.cat alnumRE
    (RE.cat (optRE (RE.cat (repUpTo 61 alnumHyphenRE) alnumRE)) (chrRE '.'))

/-- Final label of `_url_regex`: `(?:[A-Z]{2,6}\.?|[A-Z0-9-]{2,}\.?)`. -/
def urlTldRE : RE :=
  RE.alt
    (RE.cat letterRE (RE.cat letterRE (RE.cat (repUpTo 4 letterRE) (optRE (chrRE '.')))))
    (RE.cat alnumHyphenRE (RE.cat alnumHyphenRE (RE.cat (RE.star alnumHyphenRE) (optRE (chrRE '.')))))

/-- Domain group of `_url_regex`:
`(?:(?:[A-Z0-9](?:[A-Z0-9-]{0,61}[A-Z0-9])?\.)+(?:[A-Z]{2,6}\.?|[A-Z0-9-]{2,}\.?))`. -/
def urlDomainRE : RE :=
  RE.cat (plusRE urlLabelRE) urlTldRE

/-- Optional port group of `_url_regex`: `(?::\d+)?`. -/
def urlPortRE : RE :=
  optRE (RE.cat (chrRE ':') (plusRE digitRE))

/-- Trailing group of `_url_regex`: `(?:/?|[/?]\S+)` (before the `$` anchor). -/
def urlPathRE : RE :=
  RE.alt (optRE (chrRE '/'))
    (RE.cat (RE.cset false [('/', '/'), ('?', '?')]) (plusRE nonSpaceRE))

/-- The body of `_url_regex` without the final `$` anchor. -/
def urlRE : RE :=
  RE.cat urlSchemeRE (RE.cat urlDomainRE (RE.cat urlPortRE urlPathRE))

/-- Model of `_url_regex.match(value)` being a match: the pattern is compiled
with IGNORECASE (modelled by matching the uppercased input against the
uppercase pattern) and ends in `$`, which in a non-MULTILINE pattern matches at
the end of the string or just before a final newline. -/
def urlRegexMatch (v : String) : Bool :=
  let cs := (pyUpper v).data
  RE.matches urlRE cs ||
    (cs.getLast? = some '\n' && RE.matches urlRE cs.dropLast)

/-- A parsed CSP policy: the `options` mapping of `_parse_csp`, a
`collections.defaultdict(list)` kept here as an association list in insertion
order of first access. -/
abbrev Policy := List (String × List String)

/-- First-match lookup in a policy, as indexing a Python dict. -/
def polLookup : Policy → String → Option (List String)
  | [], _ => none
  | (k, vs) :: rest, name => if k = name then some vs else polLookup rest name

/-- Model of `options[a[0]] += a[1:]` on a `defaultdict(list)`: extend the
entry for the key, creating it (even with an empty list) when absent. -/
def polAdd : Policy → String → List String → Policy
  | [], k, vs => [(k, vs)]
  | (k₂, vs₂) :: rest, k, vs =>
    if k₂ = k then (k₂, vs₂ ++ vs) :: rest
    else (k₂, vs₂) :: polAdd rest k vs

/-- The finding `{"Summary": "CSP Rules allow unsafe-inline", "Severity": "High"}`. -/
def unsafeInlineFinding : Finding :=
  ⟨"CSP Rules allow unsafe-inline", "High"⟩

/-- The finding `{"Summary": "CSP Rules allow unsafe-eval", "Severity": "High"}`. -/
def unsafeEvalFinding : Finding :=
  ⟨"CSP Rules allow unsafe-eval", "High"⟩

/-- Processing of one source-expression token in `_parse_csp`: `numValues` is
`len(values)`, the number of expressions of the directive. Returns the findings
reported for the token, or the message of the `ValueError` it raises. -/
def procValue (dirname : String) (numValues : Nat) (v : String) :
    Except String (List Finding) :=
  if v = "'none'" ∨ v = "*" then
    if numValues > 2 then
      Except.error ("When " ++ v ++ " is present, other values cannot co-exist with " ++ v)
    else Except.ok []
  else if v ∉ keywordTokens then
    if urlRegexMatch v then Except.ok []
    else Except.error (v ++ " does not seem like a valid uri for " ++ dirname)
  else if v = "'unsafe-inline'" then Except.ok [unsafeInlineFinding]
  else if v = "'unsafe-eval'" then Except.ok [unsafeEvalFinding]
  else Except.ok []

/-- Processing of a directive's expression list in order; findings reported
before a raise are kept, as `report_issues` has already run for them. -/
def procValues (dirname : String) (numValues : Nat) :
    List String → List Finding × Option String
  | [] => ([], none)
  | v :: rest =>
    match procValue dirname numValues v with
    | Except.error e => ([], some e)
    | Except.ok fs =>
      match procValues dirname numValues rest with
      | (fs₂, r) => (fs ++ fs₂, r)

/-- The main loop of `_parse_csp` over the `;`-split segments, threading the
`options` mapping; a raised `ValueError` stops the loop, keeping the findings
already reported. -/
def parseSegs : List (List Char) → Policy → List Finding × Except String Policy
  | [], pol => ([], Except.ok pol)
  | seg :: rest, pol =>
    match segWords seg with
    | [] => parseSegs rest pol
    | name :: vals =>
      match procValues name vals.length vals with
      | (fs, some e) => (fs, Except.error e)
      | (fs, none) =>
        match parseSegs rest (polAdd pol name vals) with
        | (fs₂, r) => (fs ++ fs₂, r)

/-- `CSPPlugin._parse_csp`: the findings it reports and either the resulting
`options` mapping or the message of the `ValueError` it raises. -/
def cspParse (csp : String) : List Finding × Except String Policy :=
  parseSegs (splitSemiL csp.data) []

/-- A response's header mapping, as the items of the dict `r.headers`: keys are
the header names as the plugins index them. -/
abbrev Headers := List (String × String)

/-- Is a header name a key of the mapping (Python `name in headers`). -/
def hasKey : Headers → String → Bool
  | [], _ => false
  | (k, _) :: rest, name => if k = name then true else hasKey rest name

/-- First-match header lookup (Python `headers[name]` or `headers.get(name)`). -/
def hget : Headers → String → Option String
  | [], _ => none
  | (k, v) :: rest, name => if k = name then some v else hget rest name

/-- Python truthiness of an optional header value: `None` and the empty string
are falsy. -/
def truthy : Option String → Bool
  | none => false
  | some s => s != ""

/-- Python string interpolation `"%s" % x` of an optional string: `None` prints
as the word None. -/
def pyStr : Option String → String
  | none => "None"
  | some s => s

/-- Message of the `NameError` raised by `CSPPlugin._extract_csp_header` when
both names of a header set are present: line `name = t[0]` references the
undefined variable `t`. -/
def nameErrorMsg : String :=
  "NameError: global name t is not defined"

/-- `CSPPlugin._extract_csp_header(headers, keys_tuple)` for a two-name tuple
`(k₁, k₂)`: the matched name and its value, or the uncaught `NameError` when
both names are present (`len(matches) == 2` runs `name = t[0]` with `t`
undefined). With exactly one match, `matches.pop()` returns that name. -/
def extractCspHeader (headers : Headers) (k₁ k₂ : String) :
    Except String (Option String × Option String) :=
  if hasKey headers k₁ && hasKey headers k₂ then Except.error nameErrorMsg
  else if hasKey headers k₁ then Except.ok (some k₁, hget headers k₁)
  else if hasKey headers k₂ then Except.ok (some k₂, hget headers k₂)
  else Except.ok (none, none)

/-- First name of the `GOOD_HEADERS` tuple in `CSPPlugin.do_run`. -/
def goodHeader₁ : String := "x-content-security-policy"

/-- Second name of the `GOOD_HEADERS` tuple in `CSPPlugin.do_run`. -/
def goodHeader₂ : String := "content-security-policy"

/-- First name of the `BAD_HEADERS` tuple in `CSPPlugin.do_run`. -/
def badHeader₁ : String := "x-content-security-policy-report-only"

/-- Second name of the `BAD_HEADERS` tuple in `CSPPlugin.do_run`. -/
def badHeader₂ : String := "content-security-policy-report-only"

/-- `CSPPlugin.do_run` after the fetch, parameterised over the parse routine so
that branches that never parse are provably independent of it. Returns the
findings reported, and the message of an uncaught exception when one escapes
(`none` means a normal return). -/
def cspDoRunWith (parseFn : String → List Finding × Except String Policy)
    (headers : Headers) : List Finding × Option String :=
  match extractCspHeader headers goodHeader₁ goodHeader₂ with
  | Except.error e => ([], some e)
  | Except.ok (cspName, csp) =>
    match extractCspHeader headers badHeader₁ badHeader₂ with
    | Except.error e => ([], some e)
    | Except.ok (cspRoName, cspRo) =>
      if truthy csp && truthy cspRo then
        ([⟨"Both " ++ pyStr cspName ++ " and " ++ pyStr cspRoName ++ " headers set", "High"⟩], none)
      else if truthy cspRo then
        ([⟨pyStr cspRoName ++ " header set", "High"⟩], none)
      else
        match csp with
        | none => ([⟨"No Content-Security-Policy header set", "High"⟩], none)
        | some cspValue =>
          match parseFn cspValue with
          | (fs, Except.error e) =>
            (fs ++ [⟨"Malformed " ++ pyStr cspName ++ " header set: " ++ e, "High"⟩], none)
          | (fs, Except.ok pol) =>
            if pol.isEmpty then
              (fs ++ [⟨"Malformed " ++ pyStr cspName ++ " header set", "High"⟩], none)
            else
              match polLookup pol "options" with
              | none => (fs, none)
              | some opts =>
                if opts.isEmpty then (fs, none)
                else
                  (fs ++
                    (if "eval-script" ∈ opts then [⟨"CSP Rules allow eval-script", "High"⟩] else []) ++
                    (if "inline-script" ∈ opts then [⟨"CSP Rules allow inline-script", "High"⟩] else []),
                    none)

/-- `CSPPlugin.do_run` with the real `_parse_csp`. -/
def cspDoRun (headers : Headers) : List Finding × Option String :=
  cspDoRunWith cspParse headers

/-- Is the pattern a prefix of the character list? -/
def hasPrefixL : List Char → List Char → Bool
  | _, [] => true
  | [], _ :: _ => false
  | a :: as, b :: bs => a == b && hasPrefixL as bs

/-- Does the pattern occur as a contiguous substring of the character list? -/
def containsSubL (pat : List Char) : List Char → Bool
  | [] => hasPrefixL [] pat
  | c :: rest => hasPrefixL (c :: rest) pat || containsSubL pat rest

/-- Python `pat in s` / `re.findall` of a literal pattern being non-empty:
substring containment. -/
def containsSub (s pat : String) : Bool :=
  containsSubL pat.data s.data

/-- Result of Python 2.7 `urlparse.urlsplit`: scheme, netloc, path, query and
fragment components. -/
structure SplitUrl where
  scheme : String
  netloc : String
  path : String
  query : String
  fragment : String
  deriving DecidableEq, Repr

/-- The characters Python 2.7 `urlparse` allows in a scheme
(`scheme_chars`). -/
def schemeChars : List Char :=
  "abcdefghijklmnopqrstuvwxyzABCDEFGHIJKLMNOPQRSTUVWXYZ0123456789+-.".data

/-- Split at the first occurrence of `sep`, dropping it, as Python
`s.split(sep, 1)` when `sep` occurs. -/
def splitOnFirst (sep : Char) (cs : List Char) : List Char × List Char :=
  (cs.takeWhile (fun c => c != sep), (cs.dropWhile (fun c => c != sep)).drop 1)

/-- Python 2.7 `urlparse._splitnetloc(url, 2)`: the netloc runs from index 2 to
the earliest of `/`, `?`, `#` (or the end), the rest starts at that delimiter. -/
def splitNetloc (cs : List Char) : List Char × List Char :=
  let rest := cs.drop 2
  let netloc := rest.takeWhile (fun c => c != '/' && c != '?' && c != '#')
  (netloc, rest.drop netloc.length)

/-- Scheme step of Python 2.7 `urlparse.urlsplit`: when the text before the
first `:` (at positive index) is `http` exactly, or consists of scheme
characters with the rest empty or not all digits, it is the (lowercased)
scheme. Returns the scheme and the remaining url. -/
def urlsplitScheme (cs : List Char) : List Char × List Char :=
  let pre := cs.takeWhile (fun c => c != ':')
  if pre.length = cs.length ∨ pre.length = 0 then ([], cs)
  else
    let rest := cs.drop (pre.length + 1)
    if pre = "http".data then (pre.map Char.toLower, rest)
    else if pre.all (fun c => schemeChars.contains c) then
      if rest.isEmpty ∨ rest.any (fun c => ¬ c.isDigit) then (pre.map Char.toLower, rest)
      else ([], cs)
    else ([], cs)

/-- Python 2.7 `urlparse.urlsplit(url)` with default arguments: scheme
detection, `//`-netloc split with the IPv6 bracket `ValueError` (modelled as
the error case), then the fragment split at the first `#` and the query split
at the first `?`. -/
def urlsplitM (url : String) : Except String SplitUrl :=
  let (scheme, cs₁) := urlsplitScheme url.data
  let (netloc, cs₂) :=
    if cs₁.take 2 = ['/', '/'] then splitNetloc cs₁ else ([], cs₁)
  if (netloc.contains '[' && !netloc.contains ']') ||
      (netloc.contains ']' && !netloc.contains '[') then
    Except.error "Invalid IPv6 URL"
  else
    let (cs₃, fragment) :=
      if cs₂.contains '#' then splitOnFirst '#' cs₂ else (cs₂, [])
    let (path, query) :=
      if cs₃.contains '?' then splitOnFirst '?' cs₃ else (cs₃, [])
    Except.ok ⟨String.mk scheme, String.mk netloc, String.mk path,
      String.mk query, String.mk fragment⟩

/-- The capture of `re.compile(r'(?P<tag>ALLOW-FROM)\s(?P<url>.+)').match(value)`:
the value must start with `ALLOW-FROM`, one whitespace character, and at least
one character other than a newline; the greedy `.+` captures up to the first
newline or the end. -/
def captureAllowFrom (v : String) : Option String :=
  let cs := v.data
  if cs.take 10 = "ALLOW-FROM".data then
    match cs.drop 10 with
    | [] => none
    | w :: rest =>
      if isPySpace w then
        let u := rest.takeWhile (fun c => c != '\n')
        if u.isEmpty then none else some (String.mk u)
      else none
  else none

/-- `XFrameOptionsPlugin._allow_from_validator(value)`: uppercase the value,
reject when the substring `ALLOW-FORM:` occurs, require the `ALLOW-FROM` match,
split the captured url and reject a non-empty query or fragment or a scheme
other than http/https. A `ValueError` from `urlsplit` propagates (error
case). -/
def allowFromValidator (value : String) : Except String Bool :=
  if containsSub (pyUpper value) "ALLOW-FORM:" then Except.ok false
  else
    match captureAllowFrom (pyUpper value) with
    | none => Except.ok false
    | some u =>
      match urlsplitM u with
      | Except.error e => Except.error e
      | Except.ok r =>
        if r.query != "" || r.fragment != "" then Except.ok false
        else if r.scheme ≠ "http" ∧ r.scheme ≠ "https" then Except.ok false
        else Except.ok true

/-- The `set` report of `XFrameOptionsPlugin`. -/
def xfoSetFinding : Finding :=
  ⟨"X-Frame-Options header is set properly", "Info"⟩

/-- The `invalid` report of `XFrameOptionsPlugin`. -/
def xfoInvalidFinding : Finding :=
  ⟨"Invalid X-Frame-Options header detected", "High"⟩

/-- The `not-set` report of `XFrameOptionsPlugin`. Modelled from the spec: the
report formatting of `minion.plugins.base` (`_format` / `_format_report`) is
not among the repository files under review; per the spec table, an absent
header yields the NotSet finding of severity High. -/
def xfoNotSetFinding : Finding :=
  ⟨"X-Frame-Options header is not set", "High"⟩

/-- `XFrameOptionsPlugin.do_run` after the fetch: the findings for a response
with the given headers, or the message of an escaping `ValueError` from the
AllowFrom validator. -/
def xfoDoRun (headers : Headers) : Except String (List Finding) :=
  match hget headers "x-frame-options" with
  | some v =>
    if pyUpper v = "DENY" ∨ pyUpper v = "SAMEORIGIN" then Except.ok [xfoSetFinding]
    else if containsSub (pyUpper v) "ALLOW-FROM" then
      match allowFromValidator v with
      | Except.error e => Except.error e
      | Except.ok true => Except.ok [xfoSetFinding]
      | Except.ok false => Except.ok [xfoInvalidFinding]
    else Except.ok [xfoInvalidFinding]
  | none => Except.ok [xfoNotSetFinding]

/-- A fetched response, at the interface the plugins use: status code, header
mapping and the (scanned) body. Modelled from the spec: the transport
collaborator `minion.curly` is not among the repository files under review;
per the spec it returns `Response{status, headers, body, final_url}`. -/
structure Response where
  status : Nat
  headers : Headers
  deriving DecidableEq, Repr

/-- Is the status a success (2xx) one? Modelled from the spec: `minion.curly`'s
`raise_for_status` is not among the repository files under review; per the spec
the transport raises on any non-2xx status. -/
def is2xx (status : Nat) : Bool :=
  200 ≤ status && status < 300

/-- The `good` report of `AlivePlugin`. -/
def aliveGoodFinding : Finding :=
  ⟨"Site is reachable", "Info"⟩

/-- The `bad` report of `AlivePlugin`. -/
def aliveBadFinding : Finding :=
  ⟨"Site could not be reached", "Fatal"⟩

/-- `AlivePlugin.do_run`: the fetch outcome is either a transport error
(`minion.curly.BadResponseError`, also covering the raise of
`raise_for_status` on a non-2xx status) or a response. Returns the findings
reported and whether `AbstractPlugin.EXIT_STATE_ABORTED` is returned, the
abort signal for the remaining plan. -/
def aliveDoRun (fetched : Except String Response) : List Finding × Bool :=
  match fetched with
  | Except.error _ => ([aliveBadFinding], true)
  | Except.ok r =>
    if is2xx r.status then ([aliveGoodFinding], false)
    else ([aliveBadFinding], true)

/-- Result values of `RobotsPlugin.validator`: the string `'NOT-FOUND'`,
`True`, or `False`. -/
inductive RobotsResult where
  | notFound : RobotsResult
  | valid : RobotsResult
  | invalid : RobotsResult
  deriving DecidableEq, Repr

/-- `RobotsPlugin.validator` after the robots.txt fetch: `resp` is the fetched
response and `scanOutcome` the outcome of the external
`robots_scanner.scanner.scan` on its body (error = any raised exception, which
the `try` converts to `False`). The `content-type` lookup raises an uncaught
`KeyError` when the response has no such header. -/
def robotsValidator (resp : Response) (scanOutcome : Except Unit Bool) :
    Except String RobotsResult :=
  if resp.status ≠ 200 then Except.ok RobotsResult.notFound
  else
    match hget resp.headers "content-type" with
    | none => Except.error "KeyError: content-type"
    | some ct =>
      if !containsSub (pyLower ct) "text/plain" then Except.ok RobotsResult.invalid
      else
        match scanOutcome with
        | Except.error _ => Except.ok RobotsResult.invalid
        | Except.ok false => Except.ok RobotsResult.invalid
        | Except.ok true => Except.ok RobotsResult.valid

/-- The `NOT-FOUND` finding of `RobotsPlugin.do_run`. -/
def robotsNotFoundFinding : Finding :=
  ⟨"No robots.txt found", "Medium"⟩

/-- The invalid finding of `RobotsPlugin.do_run`. -/
def robotsInvalidFinding : Finding :=
  ⟨"Invalid robots.txt found", "Medium"⟩

/-- `RobotsPlugin.do_run`: dispatch on the validator result (`'NOT-FOUND'` is
truthy, so it is reported before the falsiness test). -/
def robotsDoRun (resp : Response) (scanOutcome : Except Unit Bool) :
    Except String (List Finding) :=
  match robotsValidator resp scanOutcome with
  | Except.error e => Except.error e
  | Except.ok RobotsResult.notFound => Except.ok [robotsNotFoundFinding]
  | Except.ok RobotsResult.invalid => Except.ok [robotsInvalidFinding]
  | Except.ok RobotsResult.valid => Except.ok []

/-- The expression lists of the segments of `segs` whose directive name is
`name`, in order. -/
def occsIn (segs : List (List Char)) (name : String) : List (List String) :=
  segs.filterMap (fun seg =>
    match segWords seg with
    | [] => none
    | h :: t => if h = name then some t else none)

/-- The expression lists of the occurrences of directive `name` in a CSP
header value, in order. -/
def occurrencesOf (csp : String) (name : String) : List (List String) :=
  occsIn (splitSemiL csp.data) name

theorem hget_eq_none_of_not_hasKey (headers : Headers) (name : String)
    (h : hasKey headers name = false) : hget headers name = none := by
  induction headers with
  | nil => rfl
  | cons p rest ih =>
    obtain ⟨k, v⟩ := p
    by_cases hk : k = name
    · simp [hasKey, hk] at h
    · simp only [hasKey, hget, if_neg hk] at h ⊢
      exact ih h

theorem polLookup_polAdd_self (pol : Policy) (k : String) (vs : List String) :
    polLookup (polAdd pol k vs) k = some ((polLookup pol k).getD [] ++ vs) := by
  induction pol with
  | nil => simp [polAdd, polLookup]
  | cons p rest ih =>
    obtain ⟨k₂, vs₂⟩ := p
    by_cases hk : k₂ = k
    · simp [polAdd, polLookup, hk]
    · simp [polAdd, polLookup, hk, ih]

theorem polLookup_polAdd_ne (pol : Policy) (k : String) (vs : List String)
    (name : String) (h : k ≠ name) :
    polLookup (polAdd pol k vs) name = polLookup pol name := by
  induction pol with
  | nil => simp [polAdd, polLookup, h]
  | cons p rest ih =>
    obtain ⟨k₂, vs₂⟩ := p
    by_cases hk : k₂ = k
    · subst hk
      simp [polAdd, polLookup, h]
    · simp [polAdd, polLookup, hk, ih]

theorem parseSegs_ok_lookup (segs : List (List Char)) (pol₀ : Policy)
    (fs : List Finding) (pol : Policy)
    (h : parseSegs segs pol₀ = (fs, Except.ok pol)) (name : String) :
    polLookup pol name =
      if polLookup pol₀ name = none ∧ occsIn segs name = [] then none
      else some ((polLookup pol₀ name).getD [] ++ (occsIn segs name).flatten) := by
  induction segs generalizing pol₀ fs with
  | nil =>
    simp only [parseSegs, Prod.mk.injEq, Except.ok.injEq] at h
    obtain ⟨-, h₂⟩ := h
    subst h₂
    cases hl : polLookup pol₀ name <;> simp [occsIn, hl]
  | cons seg rest ih =>
    cases hw : segWords seg with
    | nil =>
      simp only [parseSegs, hw] at h
      have := ih pol₀ fs h
      simpa [occsIn, hw] using this
    | cons nm vals =>
      simp only [parseSegs, hw] at h
      cases hpv : procValues nm vals.length vals with
      | mk fs₁ err =>
        cases err with
        | some e => simp [hpv] at h
        | none =>
          rw [hpv] at h
          cases hps : parseSegs rest (polAdd pol₀ nm vals) with
          | mk fs₂ r =>
            rw [hps] at h
            simp only [Prod.mk.injEq] at h
            obtain ⟨-, h₂⟩ := h
            subst h₂
            have hrec := ih (polAdd pol₀ nm vals) fs₂ hps
            by_cases hnm : nm = name
            · subst hnm
              rw [polLookup_polAdd_self] at hrec
              simp only [occsIn, hw, List.filterMap_cons, if_pos rfl] at hrec ⊢
              rw [hrec]
              cases hl : polLookup pol₀ nm <;>
                simp [hl, List.flatten, List.append_assoc, occsIn]
            · rw [polLookup_polAdd_ne pol₀ nm vals name hnm] at hrec
              simp only [occsIn, hw, List.filterMap_cons, if_neg hnm] at hrec ⊢
              exact hrec

theorem procValues_none_mem (d : String) (n : Nat) (v₀ : String) (f₀ : Finding)
    (hpv : procValue d n v₀ = Except.ok [f₀]) (vals : List String)
    (fs : List Finding) (h : procValues d n vals = (fs, none)) (hm : v₀ ∈ vals) :
    f₀ ∈ fs := by
  induction vals generalizing fs with
  | nil => cases hm
  | cons v rest ih =>
    cases hv : procValue d n v with
    | error e => simp [procValues, hv] at h
    | ok fsv =>
      simp only [procValues, hv] at h
      cases hr : procValues d n rest with
      | mk fs₂ r =>
        rw [hr] at h
        simp only [Prod.mk.injEq] at h
        obtain ⟨h₁, h₂⟩ := h
        subst h₁
        rcases List.mem_cons.mp hm with hm₁ | hm₂
        · subst hm₁
          rw [hpv] at hv
          cases hv
          exact List.mem_append.mpr (Or.inl (List.mem_singleton.mpr rfl))
        · exact List.mem_append.mpr (Or.inr (ih fs₂ (by rw [hr, h₂]) hm₂))

theorem parseSegs_ok_proc (segs : List (List Char)) (pol₀ : Policy)
    (fs : List Finding) (pol : Policy)
    (h : parseSegs segs pol₀ = (fs, Except.ok pol)) (seg : List Char)
    (hseg : seg ∈ segs) (nm : String) (vals : List String)
    (hw : segWords seg = nm :: vals) :
    ∃ fs₁, procValues nm vals.length vals = (fs₁, none) ∧ ∀ f ∈ fs₁, f ∈ fs := by
  induction segs generalizing pol₀ fs with
  | nil => cases hseg
  | cons s rest ih =>
    cases hw₂ : segWords s with
    | nil =>
      simp only [parseSegs, hw₂] at h
      rcases List.mem_cons.mp hseg with hs | hs
      · subst hs
        rw [hw₂] at hw
        cases hw
      · exact ih pol₀ fs h hs
    | cons nm₂ vals₂ =>
      simp only [parseSegs, hw₂] at h
      cases hpv : procValues nm₂ vals₂.length vals₂ with
      | mk fs₁ err =>
        cases err with
        | some e => simp [hpv] at h
        | none =>
          rw [hpv] at h
          cases hps : parseSegs rest (polAdd pol₀ nm₂ vals₂) with
          | mk fs₂ r =>
            rw [hps] at h
            simp only [Prod.mk.injEq] at h
            obtain ⟨h₁, h₂⟩ := h
            subst h₁
            rcases List.mem_cons.mp hseg with hs | hs
            · subst hs
              rw [hw₂] at hw
              cases hw
              exact ⟨fs₁, hpv, fun f hf => List.mem_append.mpr (Or.inl hf)⟩
            · obtain ⟨fs₃, hf₃, hsub⟩ := ih (polAdd pol₀ nm₂ vals₂) fs₂ (by rw [hps, h₂]) hs
              exact ⟨fs₃, hf₃, fun f hf => List.mem_append.mpr (Or.inr (hsub f hf))⟩

theorem procValue_unsafe_inline (d : String) (n : Nat) :
    procValue d n "'unsafe-inline'" = Except.ok [unsafeInlineFinding] := rfl

theorem procValue_unsafe_eval (d : String) (n : Nat) :
    procValue d n "'unsafe-eval'" = Except.ok [unsafeEvalFinding] := rfl

/-- Claim C1 (code bug record): parsing the CSP header value
`default-src 'none' 'self'` — the sentinel `'none'` together with exactly one
other source expression — raises no error at all: `_parse_csp` accepts it and
records both expressions, because the guard `len(values) > 2` fires only with
at least two expressions besides the sentinel, although the error message of
the guard states that no other value may co-exist with `'none'`. -/
theorem csp_none_with_one_other_accepted :
    cspParse "default-src 'none' 'self'" =
      ([], Except.ok [("default-src", ["'none'", "'self'"])]) := by
  rfl

/-- Claim C2 (counterexample): with the duplicate directive
`default-src 'self'; default-src 'https'`, the parsed policy maps
`default-src` to the concatenation `['self', 'https']` of both expression
lists, not to the expression list `['https']` of the last occurrence only. -/
theorem csp_duplicate_directive_ce :
    cspParse "default-src 'self'; default-src 'https'" =
        ([], Except.ok [("default-src", ["'self'", "'https'"])]) ∧
      (["'self'", "'https'"] : List String) ≠ ["'https'"] := by
  exact ⟨rfl, by decide⟩

/-- Claim C2 (amended): for every CSP header value parsed without error in
which directive `name` occurs in two or more segments, the policy maps `name`
to the concatenation of the expression lists of all its occurrences in order
(`options[a[0]] += a[1:]` on a `defaultdict(list)` extends, it does not
overwrite). -/
theorem csp_duplicate_directive_concat (csp : String) (name : String)
    (fs : List Finding) (pol : Policy) (h : cspParse csp = (fs, Except.ok pol))
    (hdup : 2 ≤ (occurrencesOf csp name).length) :
    polLookup pol name = some (occurrencesOf csp name).flatten := by
  have hne : occurrencesOf csp name ≠ [] := by
    intro he
    rw [he] at hdup
    simp at hdup
  have := parseSegs_ok_lookup (splitSemiL csp.data) [] fs pol h name
  rw [this]
  simp only [polLookup]
  rw [if_neg]
  · simp [occurrencesOf]
  · intro hc
    exact hne hc.2

/-- Claim C2 (witness for the amended theorem): evaluated on
`default-src 'self'; default-src 'https'`. -/
theorem csp_duplicate_directive_concat_witness :
    polLookup [("default-src", ["'self'", "'https'"])] "default-src" =
      some (occurrencesOf "default-src 'self'; default-src 'https'" "default-src").flatten :=
  csp_duplicate_directive_concat "default-src 'self'; default-src 'https'"
    "default-src" [] [("default-src", ["'self'", "'https'"])] rfl (by decide)

/-- Claim C3: with exactly one PRIMARY CSP header (extraction succeeds with a
name and a value) and exactly one REPORT_ONLY CSP header, both values
non-empty, `CSPPlugin.do_run` reports exactly one finding, of severity High
and summary `Both <primary> and <report-only> headers set`, and returns
without parsing: the result is the same for every parse routine. -/
theorem csp_both_headers_set (headers : Headers) (gn gv bn bv : String)
    (hg : extractCspHeader headers goodHeader₁ goodHeader₂ = Except.ok (some gn, some gv))
    (hb : extractCspHeader headers badHeader₁ badHeader₂ = Except.ok (some bn, some bv))
    (hgv : gv ≠ "") (hbv : bv ≠ "") :
    ∀ parseFn, cspDoRunWith parseFn headers =
      ([⟨"Both " ++ gn ++ " and " ++ bn ++ " headers set", "High"⟩], none) := by
  intro parseFn
  unfold cspDoRunWith
  rw [hg, hb]
  simp [truthy, pyStr, bne, hgv, hbv]

/-- Claim C3 (witness): evaluated on a response with a
`content-security-policy` and a `content-security-policy-report-only`
header. -/
theorem csp_both_headers_set_witness :
    cspDoRunWith cspParse
        [("content-security-policy", "default-src 'self'"),
          ("content-security-policy-report-only", "default-src 'self'")] =
      ([⟨"Both content-security-policy and content-security-policy-report-only headers set",
          "High"⟩], none) :=
  csp_both_headers_set
    [("content-security-policy", "default-src 'self'"),
      ("content-security-policy-report-only", "default-src 'self'")]
    "content-security-policy" "default-src 'self'"
    "content-security-policy-report-only" "default-src 'self'"
    rfl rfl (by decide) (by decide) cspParse

/-- Claim C4: for every CSP header value parsed without error, every directive
segment whose expression list contains `'unsafe-inline'` (resp. `'unsafe-eval'`)
contributes the High finding `CSP Rules allow unsafe-inline` (resp.
`CSP Rules allow unsafe-eval`) to the reported findings, and the directive is
recorded in the policy map. -/
theorem csp_unsafe_tokens_flagged (csp : String) (fs : List Finding)
    (pol : Policy) (h : cspParse csp = (fs, Except.ok pol)) (seg : List Char)
    (hseg : seg ∈ splitSemiL csp.data) (nm : String) (vals : List String)
    (hw : segWords seg = nm :: vals) :
    ("'unsafe-inline'" ∈ vals →
      unsafeInlineFinding ∈ fs ∧ (polLookup pol nm).isSome = true) ∧
    ("'unsafe-eval'" ∈ vals →
      unsafeEvalFinding ∈ fs ∧ (polLookup pol nm).isSome = true) := by
  have hsome : (polLookup pol nm).isSome = true := by
    have hmem : vals ∈ occsIn (splitSemiL csp.data) nm := by
      apply List.mem_filterMap.mpr
      exact ⟨seg, hseg, by simp [hw]⟩
    have hne : occsIn (splitSemiL csp.data) nm ≠ [] :=
      List.ne_nil_of_mem hmem
    rw [parseSegs_ok_lookup (splitSemiL csp.data) [] fs pol h nm]
    rw [if_neg]
    · simp
    · intro hc
      exact hne hc.2
  obtain ⟨fs₁, hpv, hsub⟩ :=
    parseSegs_ok_proc (splitSemiL csp.data) [] fs pol h seg hseg nm vals hw
  refine ⟨fun hm => ⟨?_, hsome⟩, fun hm => ⟨?_, hsome⟩⟩
  · exact hsub _ (procValues_none_mem nm vals.length _ _
      (procValue_unsafe_inline nm vals.length) vals fs₁ hpv hm)
  · exact hsub _ (procValues_none_mem nm vals.length _ _
      (procValue_unsafe_eval nm vals.length) vals fs₁ hpv hm)

/-- Claim C4 (witness): evaluated on `script-src 'unsafe-inline' 'unsafe-eval'`. -/
theorem csp_unsafe_tokens_flagged_witness :
    unsafeInlineFinding ∈ [unsafeInlineFinding, unsafeEvalFinding] ∧
    unsafeEvalFinding ∈ [unsafeInlineFinding, unsafeEvalFinding] ∧
    (polLookup [("script-src", ["'unsafe-inline'", "'unsafe-eval'"])] "script-src").isSome = true := by
  have h := csp_unsafe_tokens_flagged "script-src 'unsafe-inline' 'unsafe-eval'"
    [unsafeInlineFinding, unsafeEvalFinding]
    [("script-src", ["'unsafe-inline'", "'unsafe-eval'"])] rfl
    ("script-src 'unsafe-inline' 'unsafe-eval'").data (by decide)
    "script-src" ["'unsafe-inline'", "'unsafe-eval'"] rfl
  exact ⟨(h.1 (by decide)).1, (h.2 (by decide)).1, (h.1 (by decide)).2⟩

/-- Claim C5: when the PRIMARY CSP value is present and no REPORT_ONLY value
is, a parse that raises a `ValueError` is recovered into the High finding
`Malformed <name> header set: <error>` appended to the findings already
reported, and a parse that returns an empty policy into the High finding
`Malformed <name> header set`; in both cases `do_run` returns normally, so no
parse error propagates out of the check. -/
theorem csp_malformed_recovered (headers : Headers) (hn : Option String)
    (v : String) (ron rov : Option String)
    (hg : extractCspHeader headers goodHeader₁ goodHeader₂ = Except.ok (hn, some v))
    (hb : extractCspHeader headers badHeader₁ badHeader₂ = Except.ok (ron, rov))
    (hro : truthy rov = false) :
    (∀ fs e, cspParse v = (fs, Except.error e) →
      cspDoRun headers =
        (fs ++ [⟨"Malformed " ++ pyStr hn ++ " header set: " ++ e, "High"⟩], none)) ∧
    (∀ fs, cspParse v = (fs, Except.ok []) →
      cspDoRun headers =
        (fs ++ [⟨"Malformed " ++ pyStr hn ++ " header set", "High"⟩], none)) := by
  constructor
  · intro fs e hp
    unfold cspDoRun cspDoRunWith
    rw [hg, hb]
    simp [hro, hp]
  · intro fs hp
    unfold cspDoRun cspDoRunWith
    rw [hg, hb]
    simp [hro, hp]

/-- Claim C5 (witness): evaluated on a response whose only CSP header value
`a 'none' 'self' x` raises the exclusivity `ValueError`. -/
theorem csp_malformed_recovered_witness :
    cspDoRun [("content-security-policy", "a 'none' 'self' x")] =
      ([⟨"Malformed content-security-policy header set: When 'none' is present, other values cannot co-exist with 'none'",
          "High"⟩], none) :=
  (csp_malformed_recovered [("content-security-policy", "a 'none' 'self' x")]
    (some "content-security-policy") "a 'none' 'self' x" none none
    rfl rfl rfl).1 []
    "When 'none' is present, other values cannot co-exist with 'none'" rfl

/-- Claim C6 (counterexample): the value `ALLOW-FROM HTTP://E.ORG/ALLOW-FORM:A`
is of the form `ALLOW-FROM <url>`, its url splits into scheme `http` with
empty query and fragment, yet `_allow_from_validator` returns false, because
the value contains the rejected substring `ALLOW-FORM:`. -/
theorem allow_from_validator_ce :
    captureAllowFrom (pyUpper "ALLOW-FROM HTTP://E.ORG/ALLOW-FORM:A") =
        some "HTTP://E.ORG/ALLOW-FORM:A" ∧
      urlsplitM "HTTP://E.ORG/ALLOW-FORM:A" =
        Except.ok ⟨"http", "E.ORG", "/ALLOW-FORM:A", "", ""⟩ ∧
      allowFromValidator "ALLOW-FROM HTTP://E.ORG/ALLOW-FORM:A" = Except.ok false := by
  exact ⟨rfl, rfl, rfl⟩

/-- Claim C6 (amended): `_allow_from_validator` returns false for every value
whose captured url has a non-empty query or fragment or a scheme other than
http/https, and returns true for every value of the form `ALLOW-FROM <url>`
(any casing) whose url has scheme http or https and no query and no fragment,
provided the uppercased value does not contain the substring `ALLOW-FORM:`
(which is rejected first). -/
theorem allow_from_validator_spec (value : String) :
    (∀ u r, captureAllowFrom (pyUpper value) = some u → urlsplitM u = Except.ok r →
      (r.query ≠ "" ∨ r.fragment ≠ "" ∨ (r.scheme ≠ "http" ∧ r.scheme ≠ "https")) →
      allowFromValidator value = Except.ok false) ∧
    (∀ u r, containsSub (pyUpper value) "ALLOW-FORM:" = false →
      captureAllowFrom (pyUpper value) = some u → urlsplitM u = Except.ok r →
      (r.scheme = "http" ∨ r.scheme = "https") → r.query = "" → r.fragment = "" →
      allowFromValidator value = Except.ok true) := by
  constructor
  · intro u r hcap hsplit hbad
    unfold allowFromValidator
    by_cases hcont : containsSub (pyUpper value) "ALLOW-FORM:" = true
    · simp [hcont]
    · simp only [Bool.not_eq_true] at hcont
      simp only [hcont, Bool.false_eq_true, if_false, hcap, hsplit]
      rcases hbad with hq | hf | hs
      · simp [hq]
      · simp [hf]
      · by_cases hqe : r.query = ""
        · by_cases hfe : r.fragment = ""
          · simp [hqe, hfe, hs.1, hs.2]
          · simp [hfe]
        · simp [hqe]
  · intro u r hcont hcap hsplit hs hq hf
    unfold allowFromValidator
    simp only [hcont, Bool.false_eq_true, if_false, hcap, hsplit]
    rcases hs with hs | hs <;> simp [hq, hf, hs]

/-- Claim C6 (witness for the amended theorem): a query-free ftp url is
rejected, a query- and fragment-free http url is accepted. -/
theorem allow_from_validator_spec_witness :
    allowFromValidator "ALLOW-FROM ftp://example.org/" = Except.ok false ∧
    allowFromValidator "ALLOW-FROM http://example.org" = Except.ok true :=
  ⟨(allow_from_validator_spec "ALLOW-FROM ftp://example.org/").1
      "FTP://EXAMPLE.ORG/" ⟨"ftp", "EXAMPLE.ORG", "/", "", ""⟩ rfl rfl (by decide),
    (allow_from_validator_spec "ALLOW-FROM http://example.org").2
      "HTTP://EXAMPLE.ORG" ⟨"http", "EXAMPLE.ORG", "", "", ""⟩ rfl rfl rfl
      (Or.inl rfl) rfl rfl⟩

/-- Claim C7: for every response without an `x-frame-options` header,
`XFrameOptionsPlugin.do_run` reports exactly one finding, the NotSet report of
severity High, and raises nothing. -/
theorem xfo_not_set (headers : Headers)
    (h : hasKey headers "x-frame-options" = false) :
    xfoDoRun headers = Except.ok [xfoNotSetFinding] ∧
      xfoNotSetFinding.severity = "High" := by
  refine ⟨?_, rfl⟩
  unfold xfoDoRun
  rw [hget_eq_none_of_not_hasKey headers "x-frame-options" h]

/-- Claim C7 (witness): evaluated on a response with only a `server` header. -/
theorem xfo_not_set_witness :
    xfoDoRun [("server", "Apache")] = Except.ok [xfoNotSetFinding] :=
  (xfo_not_set [("server", "Apache")] (by decide)).1

/-- Claim C8: `AlivePlugin.do_run` reports exactly one Fatal finding and
returns the abort state on any transport error (including the raise on a
non-2xx status such as 500), and exactly one Info finding without aborting on
a successful 2xx fetch. -/
theorem alive_check (fetched : Except String Response) :
    (∀ e, fetched = Except.error e → aliveDoRun fetched = ([aliveBadFinding], true)) ∧
    (∀ r, fetched = Except.ok r → is2xx r.status = false →
      aliveDoRun fetched = ([aliveBadFinding], true)) ∧
    (∀ r, fetched = Except.ok r → is2xx r.status = true →
      aliveDoRun fetched = ([aliveGoodFinding], false)) ∧
    aliveBadFinding.severity = "Fatal" ∧ aliveGoodFinding.severity = "Info" := by
  refine ⟨?_, ?_, ?_, rfl, rfl⟩
  · intro e he
    rw [he]
    rfl
  · intro r hr hs
    rw [hr]
    simp [aliveDoRun, hs]
  · intro r hr hs
    rw [hr]
    simp [aliveDoRun, hs]

/-- Claim C8 (witness): evaluated on an HTTP 500 response and on an HTTP 200
response. -/
theorem alive_check_witness :
    aliveDoRun (Except.ok ⟨500, []⟩) = ([aliveBadFinding], true) ∧
    aliveDoRun (Except.ok ⟨200, []⟩) = ([aliveGoodFinding], false) ∧
    aliveDoRun (Except.error "connect timeout") = ([aliveBadFinding], true) :=
  ⟨(alive_check (Except.ok ⟨500, []⟩)).2.1 ⟨500, []⟩ rfl (by decide),
    ((alive_check (Except.ok ⟨200, []⟩)).2.2.1 ⟨200, []⟩ rfl (by decide)),
    (alive_check (Except.error "connect timeout")).1 "connect timeout" rfl⟩

/-- Claim C9: for a robots.txt response carrying a content-type header, a
non-200 status yields exactly the NotFound/Medium finding; with status 200, a
content-type not containing `text/plain`, a scanner exception or a scanner
result of false each yield exactly the Invalid/Medium finding without a crash;
and a `text/plain` content-type with a successful scan yields no finding. -/
theorem robots_check (resp : Response) (scanOutcome : Except Unit Bool)
    (ct : String) (hct : hget resp.headers "content-type" = some ct) :
    (resp.status ≠ 200 →
      robotsDoRun resp scanOutcome = Except.ok [robotsNotFoundFinding]) ∧
    (resp.status = 200 → containsSub (pyLower ct) "text/plain" = false →
      robotsDoRun resp scanOutcome = Except.ok [robotsInvalidFinding]) ∧
    (resp.status = 200 → scanOutcome = Except.error () →
      robotsDoRun resp scanOutcome = Except.ok [robotsInvalidFinding]) ∧
    (resp.status = 200 → scanOutcome = Except.ok false →
      robotsDoRun resp scanOutcome = Except.ok [robotsInvalidFinding]) ∧
    (resp.status = 200 → containsSub (pyLower ct) "text/plain" = true →
      scanOutcome = Except.ok true →
      robotsDoRun resp scanOutcome = Except.ok []) ∧
    robotsNotFoundFinding.severity = "Medium" ∧
      robotsInvalidFinding.severity = "Medium" := by
  refine ⟨?_, ?_, ?_, ?_, ?_, rfl, rfl⟩
  · intro hs
    simp [robotsDoRun, robotsValidator, hs]
  · intro hs hctp
    simp [robotsDoRun, robotsValidator, hs, hct, hctp]
  · intro hs hscan
    rcases hctp : containsSub (pyLower ct) "text/plain" with _ | _ <;>
      simp [robotsDoRun, robotsValidator, hs, hct, hctp, hscan]
  · intro hs hscan
    rcases hctp : containsSub (pyLower ct) "text/plain" with _ | _ <;>
      simp [robotsDoRun, robotsValidator, hs, hct, hctp, hscan]
  · intro hs hctp hscan
    simp [robotsDoRun, robotsValidator, hs, hct, hctp, hscan]

/-- Claim C9 (witness): a 404 response, a 200 response with an HTML
content-type, and a 200 text/plain response with a successful scan. -/
theorem robots_check_witness :
    robotsDoRun ⟨404, [("content-type", "text/plain")]⟩ (Except.ok true) =
        Except.ok [robotsNotFoundFinding] ∧
    robotsDoRun ⟨200, [("content-type", "text/html")]⟩ (Except.ok true) =
        Except.ok [robotsInvalidFinding] ∧
    robotsDoRun ⟨200, [("content-type", "text/plain")]⟩ (Except.error ()) =
        Except.ok [robotsInvalidFinding] ∧
    robotsDoRun ⟨200, [("content-type", "text/plain")]⟩ (Except.ok true) =
        Except.ok [] :=
  ⟨(robots_check ⟨404, [("content-type", "text/plain")]⟩ (Except.ok true)
      "text/plain" rfl).1 (by decide),
    (robots_check ⟨200, [("content-type", "text/html")]⟩ (Except.ok true)
      "text/html" rfl).2.1 rfl (by decide),
    (robots_check ⟨200, [("content-type", "text/plain")]⟩ (Except.error ())
      "text/plain" rfl).2.2.1 rfl rfl,
    (robots_check ⟨200, [("content-type", "text/plain")]⟩ (Except.ok true)
      "text/plain" rfl).2.2.2.2.1 rfl (by decide) rfl⟩

/-- Claim C10: for every response carrying both names of the same CSP header
set (both PRIMARY names, or both REPORT_ONLY names), `_extract_csp_header`
reaches `name = t[0]` with `t` undefined, so `CSPPlugin.do_run` terminates
with the uncaught NameError and reports no finding. -/
theorem csp_same_set_nameerror (headers : Headers)
    (h : (hasKey headers goodHeader₁ = true ∧ hasKey headers goodHeader₂ = true) ∨
      (hasKey headers badHeader₁ = true ∧ hasKey headers badHeader₂ = true)) :
    cspDoRun headers = ([], some nameErrorMsg) := by
  unfold cspDoRun cspDoRunWith
  rcases h with ⟨h₁, h₂⟩ | ⟨h₁, h₂⟩
  · simp [extractCspHeader, h₁, h₂]
  · cases hg₁ : hasKey headers goodHeader₁ <;> cases hg₂ : hasKey headers goodHeader₂ <;>
      simp [extractCspHeader, hg₁, hg₂, h₁, h₂]

/-- Claim C10 (witness): evaluated on a response carrying both PRIMARY header
names. -/
theorem csp_same_set_nameerror_witness :
    cspDoRun [("content-security-policy", "default-src 'self'"),
        ("x-content-security-policy", "default-src 'self'")] =
      ([], some nameErrorMsg) :=
  csp_same_set_nameerror _ (Or.inl ⟨by decide, by decide⟩)

end MinionBasic
